import Mathlib

/-!
Shallow embedding of the chick DNS-enrichment tool (src/chick.go).

The program resolves a target (IP literal or hostname) to addresses,
filters them by address-family flags, launches one enrichment task per
address, and each task runs three concurrent sub-lookups (PTR records,
ipinfo.io org info, IRCnet I-line info) whose outcomes are merged into
one Result record that is sent on a channel once all three goroutines
have joined at the task-local WaitGroup barrier.

External collaborators (the DNS resolver, the two HTTP services, the
JSON decoder, net.ParseIP, ip.String()) are modelled as inputs: each
sub-lookup outcome arrives as an Except value, the parse result of the
target as an Option over the byte form of the address, and goroutine
scheduling as the list giving the order in which the three sub-lookup
goroutines complete their final (result-mutating) sections.
-/

namespace Chick

/-- JSON body of the ipinfo.io geolocation service (struct IPInfo, chick.go lines 53-57). -/
structure IPInfo where
  IP : String
  Country : String
  Org : String
deriving DecidableEq

/-- One entry of the response array of the I-line service (chick.go lines 61-63). -/
structure ILineEntry where
  ServerName : String
deriving DecidableEq

/-- JSON body of the IRCnet I-line service (struct ILineInfo, chick.go lines 59-64). -/
structure ILineInfo where
  Status : String
  Response : List ILineEntry
deriving DecidableEq

/-- The per-address record (struct Result, chick.go lines 66-73). Error is the
aggregated failure message; none models a nil error. -/
structure Result where
  IP : String
  PTR : List String := []
  info : Option IPInfo := none
  ILine : List String := []
  IsIPv6 : Bool
  Error : Option String := none
deriving DecidableEq

/-- getILineInfo (chick.go lines 104-142). The HTTP request, body read and JSON
unmarshal are external; their combined outcome is the fetch argument (an error
there is returned unchanged). On a parsed body the function rejects any Status
other than the literal "SUCCESS" and otherwise extracts the ordered ServerName
list (empty array gives the empty list, a success). -/
def getILineInfo (fetch : Except String ILineInfo) : Except String (List String) :=
  match fetch with
  | Except.error e => Except.error e
  | Except.ok iLineInfo =>
    if iLineInfo.Status ≠ "SUCCESS" then
      Except.error "failed to get I-line info"
    else
      Except.ok (iLineInfo.Response.map (fun s => s.ServerName))

/-- The three sub-lookups of one enrichment task (the three goroutines of
lookupIP, chick.go lines 151-187). -/
inductive SubLookup
  | ptr
  | ipinfo
  | iline
deriving DecidableEq

/-- The externally determined outcomes of the three sub-lookups for one
address: net.LookupAddr, getIPInfo, and getILineInfo results. -/
structure SubOutcomes where
  ptr : Except String (List String)
  ipinfo : Except String IPInfo
  iline : Except String (List String)

/-- Tail of the PTR goroutine (chick.go lines 153-158): on error it assigns
result.Error unconditionally (no check of an existing error); on success it
writes result.PTR. -/
def applyPTR (o : Except String (List String)) (r : Result) : Result :=
  match o with
  | Except.error e => { r with Error := some ("error looking up PTR records: " ++ e) }
  | Except.ok names => { r with PTR := names }

/-- Tail of the getIPInfo goroutine (chick.go lines 163-172): on error it
appends to an existing result.Error, semicolon-separated, else starts it; on
success it writes result.IPInfo. -/
def applyIPInfo (o : Except String IPInfo) (r : Result) : Result :=
  match o with
  | Except.error e =>
    match r.Error with
    | some prev => { r with Error := some (prev ++ "; error fetching IP info: " ++ e) }
    | none => { r with Error := some ("error fetching IP info: " ++ e) }
  | Except.ok ipInfo => { r with info := some ipInfo }

/-- Tail of the getILineInfo goroutine (chick.go lines 177-186): on error it
appends to an existing result.Error, semicolon-separated, else starts it; on
success it writes result.ILine. -/
def applyILine (o : Except String (List String)) (r : Result) : Result :=
  match o with
  | Except.error e =>
    match r.Error with
    | some prev => { r with Error := some (prev ++ "; error fetching I-line info: " ++ e) }
    | none => { r with Error := some ("error fetching I-line info: " ++ e) }
  | Except.ok iLine => { r with ILine := iLine }

/-- Run the result-mutating tail of one sub-lookup goroutine. -/
def applyStep (o : SubOutcomes) (r : Result) : SubLookup → Result
  | SubLookup.ptr => applyPTR o.ptr r
  | SubLookup.ipinfo => applyIPInfo o.ipinfo r
  | SubLookup.iline => applyILine o.iline r

/-- The shared record after the goroutines listed in order have completed,
in that order, starting from r (the mutation of result in chick.go
lines 151-187, sequentialised by completion order). -/
def runSubLookups (o : SubOutcomes) (order : List SubLookup) (r : Result) : Result :=
  order.foldl (applyStep o) r

/-- result := Result{IP: ip, IsIPv6: isIPv6} (chick.go line 146). -/
def initResult (ip : String) (isIPv6 : Bool) : Result :=
  { IP := ip, IsIPv6 := isIPv6 }

/-- The record produced by lookupIP (chick.go lines 144-191) for one address,
given the three sub-lookup outcomes and the goroutine completion order. -/
def lookupIP (ip : String) (isIPv6 : Bool) (o : SubOutcomes) (order : List SubLookup) : Result :=
  runSubLookups o order (initResult ip isIPv6)

/-- Observable events of one enrichment task: completion of a sub-lookup
goroutine (wgInternal.Done) and the single send on the result channel. -/
inductive TaskEvent
  | done (s : SubLookup)
  | send (r : Result)
deriving DecidableEq

/-- Event trace of lookupIP: the three goroutines complete in order, the
WaitGroup barrier (wgInternal.Wait, line 189) joins them, then the record is
sent (line 190). -/
def lookupIPTrace (ip : String) (isIPv6 : Bool) (o : SubOutcomes) (order : List SubLookup) :
    List TaskEvent :=
  order.map TaskEvent.done ++ [TaskEvent.send (lookupIP ip isIPv6 o order)]

/-- isZeros from the Go standard library net package: all bytes zero. -/
def isZeros (bs : List Nat) : Bool := bs.all (fun b => b == 0)

/-- net.IP.To4 from the Go standard library, on the byte form of an address:
a 4-byte address is returned as is; a 16-byte address with ten zero bytes then
0xff 0xff is returned as its last four bytes; anything else gives nil. -/
def To4 (ip : List Nat) : Option (List Nat) :=
  if ip.length == 4 then some ip
  else if ip.length == 16 && isZeros (ip.take 10) && ip.getD 10 0 == 255 && ip.getD 11 0 == 255 then
    some (ip.drop 12)
  else none

/-- isIPv6 := ip.To4() == nil (chick.go line 272). -/
def goIsIPv6 (ip : List Nat) : Bool := (To4 ip).isNone

/-- Record-type header chosen by printResult (chick.go lines 194-197). -/
def recordType (isIPv6 : Bool) : String := if isIPv6 then "AAAA" else "A"

/-- The address-family filter condition of the launch loop (chick.go line 273):
(CLI.IPv4 && !isIPv6) || (CLI.IPv6 && isIPv6) || (!CLI.IPv4 && !CLI.IPv6). -/
def keepAddress (ipv4 ipv6 isIPv6 : Bool) : Bool :=
  (ipv4 && !isIPv6) || (ipv6 && isIPv6) || (!ipv4 && !ipv6)

/-- The two family flags of the CLI (chick.go lines 46-47). -/
structure Flags where
  IPv4 : Bool
  IPv6 : Bool

/-- The addresses that get an enrichment task (the launch loop, chick.go
lines 270-278): those whose family passes keepAddress. -/
def filteredAddresses (fl : Flags) (ips : List (List Nat)) : List (List Nat) :=
  ips.filter (fun ip => keepAddress fl.IPv4 fl.IPv6 (goIsIPv6 ip))

/-- validateInput (chick.go lines 220-228): accepts the target when
net.ParseIP succeeds, else when net.LookupHost succeeds. parsedIP is the
ParseIP result, hostResolves whether LookupHost returned no error. -/
def validateInput (parsedIP : Option (List Nat)) (hostResolves : Bool) : Bool :=
  parsedIP.isSome || hostResolves

/-- Address acquisition of main (chick.go lines 252-268): a parseable literal
gives exactly that single address and DNS is never consulted; otherwise the
net.LookupIP outcome (dns) decides. -/
def resolveAddresses (parsedIP : Option (List Nat))
    (dns : Except String (List (List Nat))) : Except String (List (List Nat)) :=
  match parsedIP with
  | some ip => Except.ok [ip]
  | none => dns

/-- Wakeup sources of the select loop of main (chick.go lines 298-313):
mainCtx.Done (cancelled), the done channel (drained), and the ticker. -/
inductive CoordEvent
  | tick
  | cancelled
  | done
deriving DecidableEq

/-- What the coordinator did on exit: whether the cancellation notice was
printed, and which records were rendered. -/
structure CoordOutcome where
  cancelledNotice : Bool
  rendered : List Result
deriving DecidableEq

/-- The select loop of main (chick.go lines 298-313) on a stream of wakeups:
cancellation prints the notice and returns rendering nothing, completion
renders all collected records, a tick only refreshes the progress line. none
models the (unreachable in a finite run) case that no terminating wakeup
arrives. -/
def coordLoop (results : List Result) : List CoordEvent → Option CoordOutcome
  | [] => none
  | CoordEvent.cancelled :: _ => some { cancelledNotice := true, rendered := [] }
  | CoordEvent.done :: _ => some { cancelledNotice := false, rendered := results }
  | CoordEvent.tick :: rest => coordLoop results rest

/-- Observable outcome of one run of main: process exit code, number of
enrichment tasks launched, records rendered, cancellation notice printed. -/
structure MainOutcome where
  exitCode : Nat
  launched : Nat
  rendered : List Result
  cancelledNotice : Bool
deriving DecidableEq

/-- The records the launched enrichment tasks deliver on the result channel:
one lookupIP record per filtered address (chick.go lines 270-291). ipStr is
ip.String(), subs and orders give each address its sub-lookup outcomes and
goroutine completion order. -/
def taskResults (fl : Flags) (ipStr : List Nat → String) (subs : List Nat → SubOutcomes)
    (orders : List Nat → List SubLookup) (ips : List (List Nat)) : List Result :=
  (filteredAddresses fl ips).map
    (fun ip => lookupIP (ipStr ip) (goIsIPv6 ip) (subs ip) (orders ip))

/-- main after argument parsing (chick.go lines 233-313). Fatal paths: failed
validateInput exits 1 (line 235), failed net.LookupIP for a non-literal target
exits 1 (line 266); both happen before any task is launched. Otherwise the
filtered addresses each get a lookupIP task (lines 270-278) and the select
loop decides the ending; both of its returns leave main normally (exit 0). -/
def mainModel (fl : Flags) (parsedIP : Option (List Nat)) (hostResolves : Bool)
    (dns : Except String (List (List Nat))) (ipStr : List Nat → String)
    (subs : List Nat → SubOutcomes) (orders : List Nat → List SubLookup)
    (events : List CoordEvent) : Option MainOutcome :=
  if !(validateInput parsedIP hostResolves) then
    some { exitCode := 1, launched := 0, rendered := [], cancelledNotice := false }
  else
    match resolveAddresses parsedIP dns with
    | Except.error _ =>
      some { exitCode := 1, launched := 0, rendered := [], cancelledNotice := false }
    | Except.ok ips =>
      match coordLoop (taskResults fl ipStr subs orders ips) events with
      | none => none
      | some co =>
        some { exitCode := 0, launched := (filteredAddresses fl ips).length,
               rendered := co.rendered, cancelledNotice := co.cancelledNotice }

/-- Modelled from the spec: kong.Parse (the argument parser, a dependency not
under src/) reports an argument-parsing error and terminates the process with
exit code 1 before main proceeds; argsOk is whether parsing succeeded. -/
def mainWithArgs (argsOk : Bool) (fl : Flags) (parsedIP : Option (List Nat))
    (hostResolves : Bool) (dns : Except String (List (List Nat)))
    (ipStr : List Nat → String) (subs : List Nat → SubOutcomes)
    (orders : List Nat → List SubLookup) (events : List CoordEvent) : Option MainOutcome :=
  if !argsOk then
    some { exitCode := 1, launched := 0, rendered := [], cancelledNotice := false }
  else
    mainModel fl parsedIP hostResolves dns ipStr subs orders events

/-- Whether the character list needle occurs at the start of hay. -/
def startsWithChars : List Char → List Char → Bool
  | _, [] => true
  | [], _ :: _ => false
  | a :: as, b :: bs => a == b && startsWithChars as bs

/-- Whether the character list needle occurs somewhere inside hay. -/
def containsChars : List Char → List Char → Bool
  | [], needle => needle.isEmpty
  | a :: tl, needle => startsWithChars (a :: tl) needle || containsChars tl needle

/-- Substring test used to attribute a failure fragment to its sub-lookup. -/
def strContains (hay needle : String) : Bool := containsChars hay.data needle.data

/-- Value of a record field after its (unique) writer ran: the write on a
successful outcome, the current value otherwise. -/
def fieldAfter {α β : Type} (o : Except String α) (write : α → β) (cur : β) : β :=
  match o with
  | Except.ok a => write a
  | Except.error _ => cur

/-- The byte form of the IPv4-mapped IPv6 literal ::ffff:1.2.3.4 as
net.ParseIP produces it: ten zero bytes, 0xff 0xff, then the four IPv4
bytes. -/
def v4mapped : List Nat := [0, 0, 0, 0, 0, 0, 0, 0, 0, 0, 255, 255, 1, 2, 3, 4]

/-- All-failing sub-lookup outcomes for one address: the PTR lookup, the
ipinfo fetch and the I-line fetch each fail with a distinct detail. -/
def allFailOutcomes : SubOutcomes :=
  { ptr := Except.error "px", ipinfo := Except.error "iy", iline := Except.error "iz" }

theorem startsWithChars_self_append (n t : List Char) :
    startsWithChars (n ++ t) n = true := by
  induction n with
  | nil => cases t <;> rfl
  | cons a as ih => simp [startsWithChars, ih]

theorem containsChars_nil_needle (hay : List Char) :
    containsChars hay [] = true := by
  cases hay <;> simp [containsChars, List.isEmpty, startsWithChars]

theorem containsChars_self_append (n t : List Char) :
    containsChars (n ++ t) n = true := by
  cases n with
  | nil => simpa using containsChars_nil_needle t
  | cons a as =>
    show containsChars ((a :: as) ++ t) (a :: as) = true
    have h := startsWithChars_self_append (a :: as) t
    simp [containsChars]
    left
    simpa using h

theorem containsChars_append_left (pre hay n : List Char)
    (h : containsChars hay n = true) : containsChars (pre ++ hay) n = true := by
  induction pre with
  | nil => simpa using h
  | cons a as ih => simp [containsChars, ih]

theorem strContains_append_self (a e : String) (needle tail : String) :
    strContains (a ++ (needle ++ tail) ++ e) needle = true := by
  show containsChars (a ++ (needle ++ tail) ++ e).data needle.data = true
  rw [String.data_append, String.data_append, String.data_append, List.append_assoc,
    List.append_assoc]
  exact containsChars_append_left _ _ _ (containsChars_self_append _ _)




theorem applyPTR_info (o : Except String (List String)) (r : Result) :
    (applyPTR o r).info = r.info := by cases o <;> rfl

theorem applyPTR_ILine (o : Except String (List String)) (r : Result) :
    (applyPTR o r).ILine = r.ILine := by cases o <;> rfl

theorem applyPTR_PTR (o : Except String (List String)) (r : Result) :
    (applyPTR o r).PTR = fieldAfter o id r.PTR := by cases o <;> rfl

theorem applyIPInfo_PTR (o : Except String IPInfo) (r : Result) :
    (applyIPInfo o r).PTR = r.PTR := by
  cases o with
  | error e => cases h : r.Error <;> simp [applyIPInfo, h]
  | ok i => rfl

theorem applyIPInfo_ILine (o : Except String IPInfo) (r : Result) :
    (applyIPInfo o r).ILine = r.ILine := by
  cases o with
  | error e => cases h : r.Error <;> simp [applyIPInfo, h]
  | ok i => rfl

theorem applyIPInfo_info (o : Except String IPInfo) (r : Result) :
    (applyIPInfo o r).info = fieldAfter o some r.info := by
  cases o with
  | error e => cases h : r.Error <;> simp [applyIPInfo, fieldAfter, h]
  | ok i => rfl

theorem applyILine_PTR (o : Except String (List String)) (r : Result) :
    (applyILine o r).PTR = r.PTR := by
  cases o with
  | error e => cases h : r.Error <;> simp [applyILine, h]
  | ok i => rfl

theorem applyILine_info (o : Except String (List String)) (r : Result) :
    (applyILine o r).info = r.info := by
  cases o with
  | error e => cases h : r.Error <;> simp [applyILine, h]
  | ok i => rfl

theorem applyILine_ILine (o : Except String (List String)) (r : Result) :
    (applyILine o r).ILine = fieldAfter o id r.ILine := by
  cases o with
  | error e => cases h : r.Error <;> simp [applyILine, fieldAfter, h]
  | ok i => rfl

theorem applyStep_IP (o : SubOutcomes) (r : Result) (s : SubLookup) :
    (applyStep o r s).IP = r.IP := by
  cases s <;> simp [applyStep, applyPTR, applyIPInfo, applyILine] <;>
    first
    | (cases h : o.ptr <;> simp [h] <;> cases h2 : r.Error <;> simp [h2])
    | (cases h : o.ipinfo <;> simp [h] <;> cases h2 : r.Error <;> simp [h2])
    | (cases h : o.iline <;> simp [h] <;> cases h2 : r.Error <;> simp [h2])



theorem applyPTR_IP (o : Except String (List String)) (r : Result) :
    (applyPTR o r).IP = r.IP := by cases o <;> rfl

theorem applyIPInfo_IP (o : Except String IPInfo) (r : Result) :
    (applyIPInfo o r).IP = r.IP := by
  cases o with
  | error e => cases h : r.Error <;> simp [applyIPInfo, h]
  | ok i => rfl

theorem applyILine_IP (o : Except String (List String)) (r : Result) :
    (applyILine o r).IP = r.IP := by
  cases o with
  | error e => cases h : r.Error <;> simp [applyILine, h]
  | ok i => rfl

theorem applyPTR_IsIPv6 (o : Except String (List String)) (r : Result) :
    (applyPTR o r).IsIPv6 = r.IsIPv6 := by cases o <;> rfl

theorem applyIPInfo_IsIPv6 (o : Except String IPInfo) (r : Result) :
    (applyIPInfo o r).IsIPv6 = r.IsIPv6 := by
  cases o with
  | error e => cases h : r.Error <;> simp [applyIPInfo, h]
  | ok i => rfl

theorem applyILine_IsIPv6 (o : Except String (List String)) (r : Result) :
    (applyILine o r).IsIPv6 = r.IsIPv6 := by
  cases o with
  | error e => cases h : r.Error <;> simp [applyILine, h]
  | ok i => rfl

theorem fieldAfter_fieldAfter {α β : Type} (o : Except String α) (w : α → β) (x : β) :
    fieldAfter o w (fieldAfter o w x) = fieldAfter o w x := by cases o <;> rfl

theorem runSubLookups_cons (o : SubOutcomes) (s : SubLookup) (rest : List SubLookup)
    (r : Result) :
    runSubLookups o (s :: rest) r = runSubLookups o rest (applyStep o r s) := rfl

theorem runSubLookups_IP (o : SubOutcomes) (order : List SubLookup) (r : Result) :
    (runSubLookups o order r).IP = r.IP := by
  induction order generalizing r with
  | nil => rfl
  | cons s rest ih =>
    rw [runSubLookups_cons, ih]
    cases s <;> simp [applyStep, applyPTR_IP, applyIPInfo_IP, applyILine_IP]

theorem runSubLookups_IsIPv6 (o : SubOutcomes) (order : List SubLookup) (r : Result) :
    (runSubLookups o order r).IsIPv6 = r.IsIPv6 := by
  induction order generalizing r with
  | nil => rfl
  | cons s rest ih =>
    rw [runSubLookups_cons, ih]
    cases s <;> simp [applyStep, applyPTR_IsIPv6, applyIPInfo_IsIPv6, applyILine_IsIPv6]

theorem runSubLookups_PTR (o : SubOutcomes) (order : List SubLookup) (r : Result) :
    (runSubLookups o order r).PTR =
      if SubLookup.ptr ∈ order then fieldAfter o.ptr id r.PTR else r.PTR := by
  induction order generalizing r with
  | nil => simp [runSubLookups]
  | cons s rest ih =>
    rw [runSubLookups_cons, ih]
    cases s with
    | ptr =>
      have hstep : (applyStep o r SubLookup.ptr).PTR = fieldAfter o.ptr id r.PTR :=
        applyPTR_PTR o.ptr r
      by_cases hm : SubLookup.ptr ∈ rest <;>
        simp [hm, hstep, fieldAfter_fieldAfter, List.mem_cons]
    | ipinfo =>
      have hstep : (applyStep o r SubLookup.ipinfo).PTR = r.PTR := applyIPInfo_PTR o.ipinfo r
      by_cases hm : SubLookup.ptr ∈ rest <;> simp [hm, hstep, List.mem_cons]
    | iline =>
      have hstep : (applyStep o r SubLookup.iline).PTR = r.PTR := applyILine_PTR o.iline r
      by_cases hm : SubLookup.ptr ∈ rest <;> simp [hm, hstep, List.mem_cons]

theorem runSubLookups_info (o : SubOutcomes) (order : List SubLookup) (r : Result) :
    (runSubLookups o order r).info =
      if SubLookup.ipinfo ∈ order then fieldAfter o.ipinfo some r.info else r.info := by
  induction order generalizing r with
  | nil => simp [runSubLookups]
  | cons s rest ih =>
    rw [runSubLookups_cons, ih]
    cases s with
    | ptr =>
      have hstep : (applyStep o r SubLookup.ptr).info = r.info := applyPTR_info o.ptr r
      by_cases hm : SubLookup.ipinfo ∈ rest <;> simp [hm, hstep, List.mem_cons]
    | ipinfo =>
      have hstep : (applyStep o r SubLookup.ipinfo).info = fieldAfter o.ipinfo some r.info :=
        applyIPInfo_info o.ipinfo r
      by_cases hm : SubLookup.ipinfo ∈ rest <;>
        simp [hm, hstep, fieldAfter_fieldAfter, List.mem_cons]
    | iline =>
      have hstep : (applyStep o r SubLookup.iline).info = r.info := applyILine_info o.iline r
      by_cases hm : SubLookup.ipinfo ∈ rest <;> simp [hm, hstep, List.mem_cons]

theorem runSubLookups_ILine (o : SubOutcomes) (order : List SubLookup) (r : Result) :
    (runSubLookups o order r).ILine =
      if SubLookup.iline ∈ order then fieldAfter o.iline id r.ILine else r.ILine := by
  induction order generalizing r with
  | nil => simp [runSubLookups]
  | cons s rest ih =>
    rw [runSubLookups_cons, ih]
    cases s with
    | ptr =>
      have hstep : (applyStep o r SubLookup.ptr).ILine = r.ILine := applyPTR_ILine o.ptr r
      by_cases hm : SubLookup.iline ∈ rest <;> simp [hm, hstep, List.mem_cons]
    | ipinfo =>
      have hstep : (applyStep o r SubLookup.ipinfo).ILine = r.ILine :=
        applyIPInfo_ILine o.ipinfo r
      by_cases hm : SubLookup.iline ∈ rest <;> simp [hm, hstep, List.mem_cons]
    | iline =>
      have hstep : (applyStep o r SubLookup.iline).ILine = fieldAfter o.iline id r.ILine :=
        applyILine_ILine o.iline r
      by_cases hm : SubLookup.iline ∈ rest <;>
        simp [hm, hstep, fieldAfter_fieldAfter, List.mem_cons]

theorem coordLoop_ticks (results : List Result) (pre rest : List CoordEvent)
    (h : ∀ e ∈ pre, e = CoordEvent.tick) :
    coordLoop results (pre ++ rest) = coordLoop results rest := by
  induction pre with
  | nil => rfl
  | cons a as ih =>
    have ha : a = CoordEvent.tick := h a (by simp)
    subst ha
    exact ih (fun e he => h e (by simp [he]))

theorem coordLoop_isSome_eq (rs rs2 : List Result) (evs : List CoordEvent) :
    (coordLoop rs evs).isSome = (coordLoop rs2 evs).isSome := by
  induction evs with
  | nil => rfl
  | cons a rest ih => cases a <;> simp [coordLoop] <;> exact ih

theorem strContains_middle (pre mid post : String) :
    strContains (pre ++ mid ++ post) mid = true := by
  show containsChars (pre ++ mid ++ post).data mid.data = true
  rw [String.data_append, String.data_append, List.append_assoc]
  exact containsChars_append_left _ _ _ (containsChars_self_append _ _)

theorem ilineFragmentPresent (r : Result) (e : String) :
    strContains (((applyILine (Except.error e) r).Error).getD "")
      "error fetching I-line info" = true := by
  cases hr : r.Error with
  | none =>
    simp only [applyILine, hr, Option.getD]
    show containsChars ("error fetching I-line info: " ++ e).data
        "error fetching I-line info".data = true
    have hd : "error fetching I-line info: ".data
        = "error fetching I-line info".data ++ ": ".data := by decide
    have h := containsChars_self_append "error fetching I-line info".data
      (": ".data ++ e.data)
    simp only [String.data_append, hd, List.append_assoc]
    simpa using h
  | some prev =>
    simp only [applyILine, hr, Option.getD]
    show containsChars ((prev ++ "; error fetching I-line info: ") ++ e).data
        "error fetching I-line info".data = true
    have hd : "; error fetching I-line info: ".data
        = "; ".data ++ ("error fetching I-line info".data ++ ": ".data) := by decide
    have h := containsChars_append_left (prev.data ++ "; ".data) _
      "error fetching I-line info".data
      (containsChars_self_append "error fetching I-line info".data (": ".data ++ e.data))
    simp only [String.data_append, hd, List.append_assoc]
    simpa [List.append_assoc] using h

/-- Claim C1: the spec says each failing sub-lookup appends its message to the
aggregated failure, semicolon-separated, so that when all three sub-lookups
fail the record carries three attributable fragments. The code violates this:
the PTR goroutine assigns result.Error unconditionally (chick.go line 155),
so when it completes after another failed sub-lookup the earlier fragments are
destroyed. On the all-failing input with completion order org-info, I-line,
PTR, the final failure holds only the PTR fragment; only with the PTR
goroutine first do all three fragments appear. -/
theorem C1_ptr_overwrites_aggregated_failure :
    (lookupIP "1.2.3.4" false allFailOutcomes
        [SubLookup.ipinfo, SubLookup.iline, SubLookup.ptr]).Error
      = some "error looking up PTR records: px"
    ∧ strContains "error looking up PTR records: px" "error fetching IP info" = false
    ∧ strContains "error looking up PTR records: px" "error fetching I-line info" = false
    ∧ (lookupIP "1.2.3.4" false allFailOutcomes
        [SubLookup.ipinfo, SubLookup.iline, SubLookup.ptr]).PTR = []
    ∧ (lookupIP "1.2.3.4" false allFailOutcomes
        [SubLookup.ipinfo, SubLookup.iline, SubLookup.ptr]).info = none
    ∧ (lookupIP "1.2.3.4" false allFailOutcomes
        [SubLookup.ipinfo, SubLookup.iline, SubLookup.ptr]).ILine = []
    ∧ (lookupIP "1.2.3.4" false allFailOutcomes
        [SubLookup.ptr, SubLookup.ipinfo, SubLookup.iline]).Error
      = some ("error looking up PTR records: px; error fetching IP info: iy; " ++
          "error fetching I-line info: iz") := by
  decide

/-- Claim C3: a well-formed I-line body whose Status is not the literal
"SUCCESS" makes the network-info sub-lookup fail even though the HTTP call
succeeded and the body parsed: a failure fragment attributable by substring is
recorded and the ILine field stays empty; a body with Status "SUCCESS" and an
empty response array is a success with an empty server list and no failure
fragment. -/
theorem C3_status_gate (info : ILineInfo) (hs : info.Status ≠ "SUCCESS") (r : Result)
    (e : String) (ip : String) (v6 : Bool) (o : SubOutcomes) (order : List SubLookup)
    (ho : o.iline = Except.error e) :
    getILineInfo (Except.ok info) = Except.error "failed to get I-line info"
    ∧ getILineInfo (Except.ok { Status := "SUCCESS", Response := [] }) = Except.ok []
    ∧ strContains (((applyILine (Except.error e) r).Error).getD "")
        "error fetching I-line info" = true
    ∧ (applyILine (Except.error e) r).ILine = r.ILine
    ∧ (applyILine (Except.ok []) r).Error = r.Error
    ∧ (applyILine (Except.ok []) r).ILine = []
    ∧ (lookupIP ip v6 o order).ILine = [] := by
  refine ⟨by simp [getILineInfo, hs], rfl, ilineFragmentPresent r e, ?_, rfl, rfl, ?_⟩
  · rw [applyILine_ILine]; rfl
  · show (runSubLookups o order (initResult ip v6)).ILine = []
    rw [runSubLookups_ILine, ho]
    by_cases hm : SubLookup.iline ∈ order <;> simp [hm, fieldAfter, initResult]

/-- Claim C3 witness at a concrete non-success body and a failing I-line
outcome. -/
theorem C3_status_gate_witness :
    getILineInfo (Except.ok { Status := "FAIL", Response := [] })
      = Except.error "failed to get I-line info"
    ∧ getILineInfo (Except.ok { Status := "SUCCESS", Response := [] }) = Except.ok []
    ∧ strContains (((applyILine (Except.error "boom") (initResult "9.9.9.9" false)).Error).getD "")
        "error fetching I-line info" = true
    ∧ (applyILine (Except.error "boom") (initResult "9.9.9.9" false)).ILine
      = (initResult "9.9.9.9" false).ILine
    ∧ (applyILine (Except.ok []) (initResult "9.9.9.9" false)).Error
      = (initResult "9.9.9.9" false).Error
    ∧ (applyILine (Except.ok []) (initResult "9.9.9.9" false)).ILine = []
    ∧ (lookupIP "9.9.9.9" false
        ⟨Except.ok [], Except.ok ⟨"9.9.9.9", "US", "AS1 Org"⟩, Except.error "boom"⟩
        [SubLookup.iline, SubLookup.ptr, SubLookup.ipinfo]).ILine = [] :=
  C3_status_gate { Status := "FAIL", Response := [] } (by decide)
    (initResult "9.9.9.9" false) "boom" "9.9.9.9" false
    ⟨Except.ok [], Except.ok ⟨"9.9.9.9", "US", "AS1 Org"⟩, Except.error "boom"⟩
    [SubLookup.iline, SubLookup.ptr, SubLookup.ipinfo] rfl

/-- Claim C6: a target that parses as a literal IP address yields exactly that
single address; the forward-DNS outcome is never consulted, so the result is
the same whatever DNS returns; validateInput already accepts such a target
without a hostname lookup. -/
theorem C6_literal_ip_bypasses_dns (ip : List Nat)
    (dns dns2 : Except String (List (List Nat))) :
    resolveAddresses (some ip) dns = Except.ok [ip]
    ∧ resolveAddresses (some ip) dns = resolveAddresses (some ip) dns2
    ∧ validateInput (some ip) false = true :=
  ⟨rfl, rfl, rfl⟩

/-- Claim C9: family classification is exactly whether To4 succeeds: such an
address (including the IPv4-mapped IPv6 literal ::ffff:1.2.3.4) is tagged with
the A record header and passes the IPv4-only filter; an address whose To4
fails is tagged AAAA, is dropped by the IPv4-only filter and kept by the
IPv6-only filter. -/
theorem C9_to4_classification (ip : List Nat) :
    (goIsIPv6 ip = false ↔ (To4 ip).isSome = true)
    ∧ ((To4 ip).isSome = true →
        recordType (goIsIPv6 ip) = "A" ∧ keepAddress true false (goIsIPv6 ip) = true)
    ∧ (To4 ip = none →
        recordType (goIsIPv6 ip) = "AAAA" ∧ keepAddress true false (goIsIPv6 ip) = false
        ∧ keepAddress false true (goIsIPv6 ip) = true)
    ∧ To4 v4mapped = some [1, 2, 3, 4]
    ∧ goIsIPv6 v4mapped = false
    ∧ recordType (goIsIPv6 v4mapped) = "A"
    ∧ keepAddress true false (goIsIPv6 v4mapped) = true := by
  refine ⟨?_, ?_, ?_, by decide, by decide, by decide, by decide⟩
  · cases h : To4 ip <;> simp [goIsIPv6, h]
  · intro h
    cases ht : To4 ip with
    | none => rw [ht] at h; simp at h
    | some v => simp [goIsIPv6, recordType, keepAddress, ht]
  · intro h
    simp [goIsIPv6, recordType, keepAddress, h]

/-- Claim C9 witness: the IPv4-mapped literal is tagged A and passes the
IPv4-only filter; an address with no 4-byte form is tagged AAAA. -/
theorem C9_to4_classification_witness :
    (recordType (goIsIPv6 v4mapped) = "A" ∧ keepAddress true false (goIsIPv6 v4mapped) = true)
    ∧ (recordType (goIsIPv6 (List.replicate 16 1)) = "AAAA"
       ∧ keepAddress true false (goIsIPv6 (List.replicate 16 1)) = false
       ∧ keepAddress false true (goIsIPv6 (List.replicate 16 1)) = true) :=
  ⟨(C9_to4_classification v4mapped).2.1 (by decide),
   (C9_to4_classification (List.replicate 16 1)).2.2.1 (by decide)⟩

/-- Claim C2: for any completion order of the three sub-lookup goroutines, the
enrichment task for one address emits exactly one send on the result channel,
and that send is the last event of the trace, after the completion of each of
the three sub-lookups, whether each succeeded or failed. -/
theorem C2_single_send_after_join (ip : String) (v6 : Bool) (o : SubOutcomes)
    (order : List SubLookup)
    (h : order.Perm [SubLookup.ptr, SubLookup.ipinfo, SubLookup.iline]) :
    (lookupIPTrace ip v6 o order).countP
        (fun e => match e with | TaskEvent.send _ => true | _ => false) = 1
    ∧ (lookupIPTrace ip v6 o order).getLast?
      = some (TaskEvent.send (lookupIP ip v6 o order))
    ∧ ∀ s : SubLookup, TaskEvent.done s ∈ (lookupIPTrace ip v6 o order).dropLast := by
  refine ⟨?_, ?_, ?_⟩
  · unfold lookupIPTrace
    rw [List.countP_append]
    have h0 : (order.map TaskEvent.done).countP
        (fun e => match e with | TaskEvent.send _ => true | _ => false) = 0 := by
      rw [List.countP_eq_zero]
      intro a ha
      rcases List.mem_map.1 ha with ⟨s, _, rfl⟩
      simp
    rw [h0]
    rfl
  · unfold lookupIPTrace
    exact List.getLast?_concat _
  · intro s
    unfold lookupIPTrace
    rw [List.dropLast_concat]
    exact List.mem_map_of_mem _ (h.mem_iff.2 (by cases s <;> simp))

/-- Claim C2 witness at a concrete order and concrete outcomes. -/
theorem C2_single_send_after_join_witness :
    (lookupIPTrace "1.2.3.4" false
        ⟨Except.ok ["host.example.com."], Except.ok ⟨"1.2.3.4", "US", "AS1 Org"⟩,
          Except.ok ["irc1.example.net"]⟩
        [SubLookup.iline, SubLookup.ipinfo, SubLookup.ptr]).countP
        (fun e => match e with | TaskEvent.send _ => true | _ => false) = 1
    ∧ (lookupIPTrace "1.2.3.4" false
        ⟨Except.ok ["host.example.com."], Except.ok ⟨"1.2.3.4", "US", "AS1 Org"⟩,
          Except.ok ["irc1.example.net"]⟩
        [SubLookup.iline, SubLookup.ipinfo, SubLookup.ptr]).getLast?
      = some (TaskEvent.send (lookupIP "1.2.3.4" false
          ⟨Except.ok ["host.example.com."], Except.ok ⟨"1.2.3.4", "US", "AS1 Org"⟩,
            Except.ok ["irc1.example.net"]⟩
          [SubLookup.iline, SubLookup.ipinfo, SubLookup.ptr]))
    ∧ ∀ s : SubLookup, TaskEvent.done s ∈ (lookupIPTrace "1.2.3.4" false
        ⟨Except.ok ["host.example.com."], Except.ok ⟨"1.2.3.4", "US", "AS1 Org"⟩,
          Except.ok ["irc1.example.net"]⟩
        [SubLookup.iline, SubLookup.ipinfo, SubLookup.ptr]).dropLast :=
  C2_single_send_after_join "1.2.3.4" false
    ⟨Except.ok ["host.example.com."], Except.ok ⟨"1.2.3.4", "US", "AS1 Org"⟩,
      Except.ok ["irc1.example.net"]⟩
    [SubLookup.iline, SubLookup.ipinfo, SubLookup.ptr] (by decide)

/-- Claim C8: the three sub-lookups write disjoint record fields apart from the
shared failure field: each goroutine tail leaves the data fields of the other
two unchanged, and every record field other than Error is independent of the
goroutine completion order; the only read of the shared record (the channel
send) happens after all completion events, at the trace end. -/
theorem C8_disjoint_writes_safe (o : SubOutcomes) (r : Result)
    (ip : String) (v6 : Bool) (order order2 : List SubLookup)
    (hperm : order.Perm order2) :
    ((applyPTR o.ptr r).info = r.info ∧ (applyPTR o.ptr r).ILine = r.ILine)
    ∧ ((applyIPInfo o.ipinfo r).PTR = r.PTR ∧ (applyIPInfo o.ipinfo r).ILine = r.ILine)
    ∧ ((applyILine o.iline r).PTR = r.PTR ∧ (applyILine o.iline r).info = r.info)
    ∧ ((lookupIP ip v6 o order).PTR = (lookupIP ip v6 o order2).PTR
        ∧ (lookupIP ip v6 o order).info = (lookupIP ip v6 o order2).info
        ∧ (lookupIP ip v6 o order).ILine = (lookupIP ip v6 o order2).ILine
        ∧ (lookupIP ip v6 o order).IP = (lookupIP ip v6 o order2).IP
        ∧ (lookupIP ip v6 o order).IsIPv6 = (lookupIP ip v6 o order2).IsIPv6)
    ∧ ((lookupIPTrace ip v6 o order).dropLast = order.map TaskEvent.done
        ∧ (lookupIPTrace ip v6 o order).getLast?
          = some (TaskEvent.send (lookupIP ip v6 o order))) := by
  refine ⟨⟨applyPTR_info o.ptr r, applyPTR_ILine o.ptr r⟩,
    ⟨applyIPInfo_PTR o.ipinfo r, applyIPInfo_ILine o.ipinfo r⟩,
    ⟨applyILine_PTR o.iline r, applyILine_info o.iline r⟩,
    ⟨?_, ?_, ?_, ?_, ?_⟩, ?_, ?_⟩
  · show (runSubLookups o order (initResult ip v6)).PTR
      = (runSubLookups o order2 (initResult ip v6)).PTR
    simp only [runSubLookups_PTR, hperm.mem_iff]
  · show (runSubLookups o order (initResult ip v6)).info
      = (runSubLookups o order2 (initResult ip v6)).info
    simp only [runSubLookups_info, hperm.mem_iff]
  · show (runSubLookups o order (initResult ip v6)).ILine
      = (runSubLookups o order2 (initResult ip v6)).ILine
    simp only [runSubLookups_ILine, hperm.mem_iff]
  · show (runSubLookups o order (initResult ip v6)).IP
      = (runSubLookups o order2 (initResult ip v6)).IP
    rw [runSubLookups_IP, runSubLookups_IP]
  · show (runSubLookups o order (initResult ip v6)).IsIPv6
      = (runSubLookups o order2 (initResult ip v6)).IsIPv6
    rw [runSubLookups_IsIPv6, runSubLookups_IsIPv6]
  · unfold lookupIPTrace
    exact List.dropLast_concat
  · unfold lookupIPTrace
    exact List.getLast?_concat _

/-- Claim C8 witness at two concrete completion orders of the same outcomes. -/
theorem C8_disjoint_writes_safe_witness :
    (lookupIP "8.8.8.8" false
        ⟨Except.error "nx", Except.ok ⟨"8.8.8.8", "US", "AS15169 Google"⟩, Except.ok []⟩
        [SubLookup.ptr, SubLookup.ipinfo, SubLookup.iline]).PTR
      = (lookupIP "8.8.8.8" false
        ⟨Except.error "nx", Except.ok ⟨"8.8.8.8", "US", "AS15169 Google"⟩, Except.ok []⟩
        [SubLookup.iline, SubLookup.ptr, SubLookup.ipinfo]).PTR
    ∧ (lookupIP "8.8.8.8" false
        ⟨Except.error "nx", Except.ok ⟨"8.8.8.8", "US", "AS15169 Google"⟩, Except.ok []⟩
        [SubLookup.ptr, SubLookup.ipinfo, SubLookup.iline]).info
      = (lookupIP "8.8.8.8" false
        ⟨Except.error "nx", Except.ok ⟨"8.8.8.8", "US", "AS15169 Google"⟩, Except.ok []⟩
        [SubLookup.iline, SubLookup.ptr, SubLookup.ipinfo]).info :=
  ⟨((C8_disjoint_writes_safe
      ⟨Except.error "nx", Except.ok ⟨"8.8.8.8", "US", "AS15169 Google"⟩, Except.ok []⟩
      (initResult "8.8.8.8" false) "8.8.8.8" false
      [SubLookup.ptr, SubLookup.ipinfo, SubLookup.iline]
      [SubLookup.iline, SubLookup.ptr, SubLookup.ipinfo] (by decide)).2.2.2.1).1,
   ((C8_disjoint_writes_safe
      ⟨Except.error "nx", Except.ok ⟨"8.8.8.8", "US", "AS15169 Google"⟩, Except.ok []⟩
      (initResult "8.8.8.8" false) "8.8.8.8" false
      [SubLookup.ptr, SubLookup.ipinfo, SubLookup.iline]
      [SubLookup.iline, SubLookup.ptr, SubLookup.ipinfo] (by decide)).2.2.2.1).2.1⟩

/-- Claim C4: when the run-wide context is cancelled while the run is in
flight (the cancellation wakeup arrives before the drain-complete wakeup,
after any number of progress ticks), the coordinator prints the cancellation
notice and exits rendering no record, even if records had already been
collected; main still reports launch of the filtered tasks but renders
nothing. -/
theorem C4_cancel_renders_nothing (results : List Result) (pre post : List CoordEvent)
    (hpre : ∀ e ∈ pre, e = CoordEvent.tick)
    (fl : Flags) (parsedIP : Option (List Nat)) (hostResolves : Bool)
    (dns : Except String (List (List Nat))) (ipStr : List Nat → String)
    (subs : List Nat → SubOutcomes) (orders : List Nat → List SubLookup)
    (ips : List (List Nat))
    (hv : validateInput parsedIP hostResolves = true)
    (hr : resolveAddresses parsedIP dns = Except.ok ips) :
    coordLoop results (pre ++ CoordEvent.cancelled :: post)
      = some { cancelledNotice := true, rendered := [] }
    ∧ mainModel fl parsedIP hostResolves dns ipStr subs orders
        (pre ++ CoordEvent.cancelled :: post)
      = some { exitCode := 0, launched := (filteredAddresses fl ips).length,
               rendered := [], cancelledNotice := true } := by
  have hc : ∀ rs : List Result, coordLoop rs (pre ++ CoordEvent.cancelled :: post)
      = some { cancelledNotice := true, rendered := [] } := by
    intro rs
    rw [coordLoop_ticks rs pre _ hpre]
    rfl
  refine ⟨hc results, ?_⟩
  simp [mainModel, hv, hr, hc]

/-- Claim C4 witness: one collected record, one tick, then cancellation. -/
theorem C4_cancel_renders_nothing_witness :
    coordLoop [initResult "1.2.3.4" false]
        ([CoordEvent.tick] ++ CoordEvent.cancelled :: [CoordEvent.done])
      = some { cancelledNotice := true, rendered := [] }
    ∧ mainModel ⟨false, false⟩ (some [1, 2, 3, 4]) false (Except.ok [])
        (fun _ => "1.2.3.4") (fun _ => allFailOutcomes)
        (fun _ => [SubLookup.ptr, SubLookup.ipinfo, SubLookup.iline])
        ([CoordEvent.tick] ++ CoordEvent.cancelled :: [CoordEvent.done])
      = some { exitCode := 0,
               launched := (filteredAddresses ⟨false, false⟩ [[1, 2, 3, 4]]).length,
               rendered := [], cancelledNotice := true } :=
  C4_cancel_renders_nothing [initResult "1.2.3.4" false] [CoordEvent.tick] [CoordEvent.done]
    (by intro e he; simpa using he)
    ⟨false, false⟩ (some [1, 2, 3, 4]) false (Except.ok []) (fun _ => "1.2.3.4")
    (fun _ => allFailOutcomes) (fun _ => [SubLookup.ptr, SubLookup.ipinfo, SubLookup.iline])
    [[1, 2, 3, 4]] (by decide) rfl

/-- Claim C5: the address-family filter keeps an address exactly when (the
IPv4 flag is set and the address is IPv4) or (the IPv6 flag is set and the
address is IPv6) or neither flag is set; and the enrichment tasks (hence the
rendered records and the launch count) come exactly from the kept
addresses. -/
theorem C5_family_filter (ipv4 ipv6 v6 : Bool) (fl : Flags) (ips : List (List Nat))
    (parsedIP : Option (List Nat)) (hostResolves : Bool)
    (dns : Except String (List (List Nat))) (ipStr : List Nat → String)
    (subs : List Nat → SubOutcomes) (orders : List Nat → List SubLookup)
    (pre post : List CoordEvent)
    (hpre : ∀ e ∈ pre, e = CoordEvent.tick)
    (hv : validateInput parsedIP hostResolves = true)
    (hr : resolveAddresses parsedIP dns = Except.ok ips) :
    (keepAddress ipv4 ipv6 v6 = true ↔
      ((ipv4 = true ∧ v6 = false) ∨ (ipv6 = true ∧ v6 = true)
        ∨ (ipv4 = false ∧ ipv6 = false)))
    ∧ filteredAddresses fl ips
      = ips.filter (fun ip => keepAddress fl.IPv4 fl.IPv6 (goIsIPv6 ip))
    ∧ mainModel fl parsedIP hostResolves dns ipStr subs orders
        (pre ++ CoordEvent.done :: post)
      = some { exitCode := 0, launched := (filteredAddresses fl ips).length,
               rendered := (filteredAddresses fl ips).map
                 (fun ip => lookupIP (ipStr ip) (goIsIPv6 ip) (subs ip) (orders ip)),
               cancelledNotice := false } := by
  refine ⟨?_, rfl, ?_⟩
  · cases ipv4 <;> cases ipv6 <;> cases v6 <;> simp [keepAddress]
  · have hdone : ∀ rs : List Result, coordLoop rs (pre ++ CoordEvent.done :: post)
        = some { cancelledNotice := false, rendered := rs } := by
      intro rs
      rw [coordLoop_ticks rs pre _ hpre]
      rfl
    simp [mainModel, hv, hr, hdone, taskResults]

/-- Claim C5 witness: one IPv4 and one IPv6 address under the IPv4-only flag,
with a normal completion. -/
theorem C5_family_filter_witness :
    (keepAddress true false false = true ↔
      ((true = true ∧ false = false) ∨ (false = true ∧ false = true)
        ∨ (true = false ∧ false = false)))
    ∧ filteredAddresses ⟨true, false⟩ [[1, 2, 3, 4], List.replicate 16 1]
      = ([[1, 2, 3, 4], List.replicate 16 1] : List (List Nat)).filter
          (fun ip => keepAddress true false (goIsIPv6 ip))
    ∧ mainModel ⟨true, false⟩ none true
        (Except.ok [[1, 2, 3, 4], List.replicate 16 1]) (fun _ => "1.2.3.4")
        (fun _ => allFailOutcomes)
        (fun _ => [SubLookup.ptr, SubLookup.ipinfo, SubLookup.iline])
        ([] ++ CoordEvent.done :: [])
      = some { exitCode := 0,
               launched := (filteredAddresses ⟨true, false⟩
                 [[1, 2, 3, 4], List.replicate 16 1]).length,
               rendered := (filteredAddresses ⟨true, false⟩
                 [[1, 2, 3, 4], List.replicate 16 1]).map
                 (fun ip => lookupIP "1.2.3.4" (goIsIPv6 ip) allFailOutcomes
                   [SubLookup.ptr, SubLookup.ipinfo, SubLookup.iline]),
               cancelledNotice := false } :=
  C5_family_filter true false false ⟨true, false⟩ [[1, 2, 3, 4], List.replicate 16 1]
    none true (Except.ok [[1, 2, 3, 4], List.replicate 16 1]) (fun _ => "1.2.3.4")
    (fun _ => allFailOutcomes) (fun _ => [SubLookup.ptr, SubLookup.ipinfo, SubLookup.iline])
    [] [] (by intro e he; simp at he) (by decide) rfl

/-- Claim C10: when the family filter eliminates every resolved address, zero
enrichment tasks are launched and the run completes normally: exit code 0, no
record rendered, no error and no cancellation notice. -/
theorem C10_empty_filter_normal_exit (fl : Flags) (parsedIP : Option (List Nat))
    (hostResolves : Bool) (dns : Except String (List (List Nat)))
    (ipStr : List Nat → String) (subs : List Nat → SubOutcomes)
    (orders : List Nat → List SubLookup) (ips : List (List Nat))
    (pre post : List CoordEvent)
    (hv : validateInput parsedIP hostResolves = true)
    (hr : resolveAddresses parsedIP dns = Except.ok ips)
    (hf : filteredAddresses fl ips = [])
    (hpre : ∀ e ∈ pre, e = CoordEvent.tick) :
    mainModel fl parsedIP hostResolves dns ipStr subs orders
        (pre ++ CoordEvent.done :: post)
      = some { exitCode := 0, launched := 0, rendered := [], cancelledNotice := false } := by
  have hdone : ∀ rs : List Result, coordLoop rs (pre ++ CoordEvent.done :: post)
      = some { cancelledNotice := false, rendered := rs } := by
    intro rs
    rw [coordLoop_ticks rs pre _ hpre]
    rfl
  simp [mainModel, hv, hr, hdone, taskResults, hf]

/-- Claim C10 witness: an IPv4 literal target under the IPv6-only flag. -/
theorem C10_empty_filter_normal_exit_witness :
    mainModel ⟨false, true⟩ (some [1, 2, 3, 4]) false (Except.ok [])
        (fun _ => "1.2.3.4") (fun _ => allFailOutcomes)
        (fun _ => [SubLookup.ptr, SubLookup.ipinfo, SubLookup.iline])
        ([] ++ CoordEvent.done :: [])
      = some { exitCode := 0, launched := 0, rendered := [], cancelledNotice := false } :=
  C10_empty_filter_normal_exit ⟨false, true⟩ (some [1, 2, 3, 4]) false (Except.ok [])
    (fun _ => "1.2.3.4") (fun _ => allFailOutcomes)
    (fun _ => [SubLookup.ptr, SubLookup.ipinfo, SubLookup.iline]) [[1, 2, 3, 4]] [] []
    (by decide) rfl (by decide) (by intro e he; simp at he)

theorem mainModel_exit_subs_independent (fl : Flags) (parsedIP : Option (List Nat))
    (hostResolves : Bool) (dns : Except String (List (List Nat)))
    (ipStr : List Nat → String) (subs subs2 : List Nat → SubOutcomes)
    (orders orders2 : List Nat → List SubLookup) (events : List CoordEvent) :
    Option.map MainOutcome.exitCode
        (mainModel fl parsedIP hostResolves dns ipStr subs orders events)
      = Option.map MainOutcome.exitCode
        (mainModel fl parsedIP hostResolves dns ipStr subs2 orders2 events) := by
  unfold mainModel
  cases hv : validateInput parsedIP hostResolves
  · simp
  · simp only [Bool.not_true, Bool.false_eq_true, if_false]
    cases hr : resolveAddresses parsedIP dns with
    | error m => simp
    | ok ips =>
      have hs := coordLoop_isSome_eq (taskResults fl ipStr subs orders ips)
        (taskResults fl ipStr subs2 orders2 ips) events
      cases h1 : coordLoop (taskResults fl ipStr subs orders ips) events with
      | none =>
        cases h2 : coordLoop (taskResults fl ipStr subs2 orders2 ips) events with
        | none => simp [h1, h2]
        | some co2 => rw [h1, h2] at hs; simp at hs
      | some co =>
        cases h2 : coordLoop (taskResults fl ipStr subs2 orders2 ips) events with
        | none => rw [h1, h2] at hs; simp at hs
        | some co2 => simp [h1, h2]

/-- Claim C7: the process exits 0 on normal completion (sub-lookup failures
rendered inline never change the exit code: it is independent of every
per-address sub-lookup outcome), and exits 1 exactly on an argument-parsing
error, an invalid target, or a failed initial address resolution; on every
exit-1 path no enrichment task was launched and nothing was rendered. -/
theorem C7_exit_codes (argsOk : Bool) (fl : Flags) (parsedIP : Option (List Nat))
    (hostResolves : Bool) (dns : Except String (List (List Nat)))
    (ipStr : List Nat → String) (subs subs2 : List Nat → SubOutcomes)
    (orders orders2 : List Nat → List SubLookup) (events : List CoordEvent)
    (out : MainOutcome)
    (hout : mainWithArgs argsOk fl parsedIP hostResolves dns ipStr subs orders events
      = some out) :
    (out.exitCode = 0 ∨ out.exitCode = 1)
    ∧ (out.exitCode = 1 ↔
        (argsOk = false ∨ validateInput parsedIP hostResolves = false
          ∨ (parsedIP = none ∧ ∃ m, dns = Except.error m)))
    ∧ (out.exitCode = 1 → out.launched = 0 ∧ out.rendered = [])
    ∧ Option.map MainOutcome.exitCode
        (mainWithArgs argsOk fl parsedIP hostResolves dns ipStr subs orders events)
      = Option.map MainOutcome.exitCode
        (mainWithArgs argsOk fl parsedIP hostResolves dns ipStr subs2 orders2 events) := by
  have hind : Option.map MainOutcome.exitCode
      (mainWithArgs argsOk fl parsedIP hostResolves dns ipStr subs orders events)
      = Option.map MainOutcome.exitCode
      (mainWithArgs argsOk fl parsedIP hostResolves dns ipStr subs2 orders2 events) := by
    cases argsOk with
    | false => rfl
    | true =>
      show Option.map MainOutcome.exitCode
          (mainModel fl parsedIP hostResolves dns ipStr subs orders events)
        = Option.map MainOutcome.exitCode
          (mainModel fl parsedIP hostResolves dns ipStr subs2 orders2 events)
      exact mainModel_exit_subs_independent fl parsedIP hostResolves dns ipStr
        subs subs2 orders orders2 events
  cases argsOk with
  | false =>
    simp only [mainWithArgs, Bool.not_false, if_true] at hout
    cases hout
    exact ⟨Or.inr rfl, by simp, fun _ => ⟨rfl, rfl⟩, hind⟩
  | true =>
    simp only [mainWithArgs, Bool.not_true, Bool.false_eq_true, if_false] at hout
    cases hv : validateInput parsedIP hostResolves with
    | false =>
      rw [mainModel, hv] at hout
      simp only [Bool.not_false, if_true] at hout
      cases hout
      exact ⟨Or.inr rfl, by simp [hv], fun _ => ⟨rfl, rfl⟩, hind⟩
    | true =>
      rw [mainModel, hv] at hout
      simp only [Bool.not_true, Bool.false_eq_true, if_false] at hout
      cases parsedIP with
      | some ip =>
        simp only [resolveAddresses] at hout
        cases hcl : coordLoop (taskResults fl ipStr subs orders [ip]) events with
        | none => rw [hcl] at hout; cases hout
        | some co =>
          rw [hcl] at hout
          cases hout
          refine ⟨Or.inl rfl, by simp [hv], fun h => absurd h (by simp), hind⟩
      | none =>
        simp only [resolveAddresses] at hout
        cases dns with
        | error m =>
          simp only at hout
          cases hout
          exact ⟨Or.inr rfl, by simp [hv, Except.error.injEq], fun _ => ⟨rfl, rfl⟩, hind⟩
        | ok ips =>
          simp only at hout
          cases hcl : coordLoop (taskResults fl ipStr subs orders ips) events with
          | none => rw [hcl] at hout; cases hout
          | some co =>
            rw [hcl] at hout
            cases hout
            refine ⟨Or.inl rfl, by simp [hv], fun h => absurd h (by simp), hind⟩



/-- Claim C7 witness: a normally completing run over the IPv4 literal target,
with all-failing sub-lookups on one side and all-succeeding ones on the
other. -/
theorem C7_exit_codes_witness :
    (({ exitCode := 0, launched := 1, rendered := [lookupIP "1.2.3.4" false allFailOutcomes [SubLookup.ptr, SubLookup.ipinfo, SubLookup.iline]], cancelledNotice := false } : MainOutcome).exitCode = 0
      ∨ ({ exitCode := 0, launched := 1, rendered := [lookupIP "1.2.3.4" false allFailOutcomes [SubLookup.ptr, SubLookup.ipinfo, SubLookup.iline]], cancelledNotice := false } : MainOutcome).exitCode = 1)
    ∧ (({ exitCode := 0, launched := 1, rendered := [lookupIP "1.2.3.4" false allFailOutcomes [SubLookup.ptr, SubLookup.ipinfo, SubLookup.iline]], cancelledNotice := false } : MainOutcome).exitCode = 1 ↔
        (true = false ∨ validateInput (some [1, 2, 3, 4]) false = false
          ∨ ((some [1, 2, 3, 4] : Option (List Nat)) = none
            ∧ ∃ m, (Except.ok [] : Except String (List (List Nat))) = Except.error m)))
    ∧ (({ exitCode := 0, launched := 1, rendered := [lookupIP "1.2.3.4" false allFailOutcomes [SubLookup.ptr, SubLookup.ipinfo, SubLookup.iline]], cancelledNotice := false } : MainOutcome).exitCode = 1 →
        ({ exitCode := 0, launched := 1, rendered := [lookupIP "1.2.3.4" false allFailOutcomes [SubLookup.ptr, SubLookup.ipinfo, SubLookup.iline]], cancelledNotice := false } : MainOutcome).launched = 0
        ∧ ({ exitCode := 0, launched := 1, rendered := [lookupIP "1.2.3.4" false allFailOutcomes [SubLookup.ptr, SubLookup.ipinfo, SubLookup.iline]], cancelledNotice := false } : MainOutcome).rendered = [])
    ∧ Option.map MainOutcome.exitCode
        (mainWithArgs true ⟨false, false⟩ (some [1, 2, 3, 4]) false (Except.ok [])
          (fun _ => "1.2.3.4") (fun _ => allFailOutcomes)
          (fun _ => [SubLookup.ptr, SubLookup.ipinfo, SubLookup.iline]) [CoordEvent.done])
      = Option.map MainOutcome.exitCode
        (mainWithArgs true ⟨false, false⟩ (some [1, 2, 3, 4]) false (Except.ok [])
          (fun _ => "1.2.3.4")
          (fun _ => ⟨Except.ok ["host.example.com."],
            Except.ok ⟨"1.2.3.4", "US", "AS1 Org"⟩, Except.ok ["irc1.example.net"]⟩)
          (fun _ => [SubLookup.iline, SubLookup.ipinfo, SubLookup.ptr]) [CoordEvent.done]) :=
  C7_exit_codes true ⟨false, false⟩ (some [1, 2, 3, 4]) false (Except.ok [])
    (fun _ => "1.2.3.4") (fun _ => allFailOutcomes)
    (fun _ => ⟨Except.ok ["host.example.com."],
      Except.ok ⟨"1.2.3.4", "US", "AS1 Org"⟩, Except.ok ["irc1.example.net"]⟩)
    (fun _ => [SubLookup.ptr, SubLookup.ipinfo, SubLookup.iline])
    (fun _ => [SubLookup.iline, SubLookup.ipinfo, SubLookup.ptr]) [CoordEvent.done]
    { exitCode := 0, launched := 1, rendered := [lookupIP "1.2.3.4" false allFailOutcomes [SubLookup.ptr, SubLookup.ipinfo, SubLookup.iline]], cancelledNotice := false }
    (by decide)

end Chick
